import Mathlib

/-!
Shallow embedding of the kawaii-face animation engine
(`src/lvgl_kawaii_face.c`, `src/include/lvgl_kawaii_face.h`).

Modelling conventions:
* C `uint8_t` fields are `Nat` values; every store that can wrap goes
  through `toUInt8` (reduction mod 256).  C `int8_t` fields are `Int`
  values; stores that can wrap go through `toInt8` (two's-complement
  wrap, the behaviour of the target compilers).
* C `/` on `int` is truncating division, `Int.tdiv` here.
* Time (`lv_tick_get`) is a `Nat` parameter `now` threaded into the
  timer callback; `uint32_t` tick wrap-around is not modelled (the
  claims under study never run 2^32 ms).
* The idle-motion generator computes several values from `sinf`/`cosf`
  and truncates them to integers.  Each such truncated value lies in a
  small interval fixed by the amplitude (for example
  `(int8_t)(3.5f * sinf x)` lies in `[-3, 3]`).  These values are
  modelled as adversarial per-tick oracle inputs clamped to exactly
  that interval, so every real execution is an instance of the model.
  All state the claims quantify over is integer-exact.
* LVGL drawing calls only paint pixel buffers; the mouth renderer's
  branch structure (which shape is drawn) is embedded as
  `mouthShapeSelect`.
-/

namespace KawaiiFace

/-- Reduction of an `Int` store into a C `uint8_t` l-value. -/
def toUInt8 (x : Int) : Nat := (x % 256).toNat

/-- Reduction of an `Int` store into a C `int8_t` l-value
(two's-complement wrap, as GCC and Clang define the conversion). -/
def toInt8 (x : Int) : Int :=
  let r := x % 256
  if r < 128 then r else r - 256

/-- Clamp an integer oracle sample into `[lo, hi]`; used to model a
truncated float expression whose mathematical range is `[lo, hi]`. -/
def clampI (lo hi x : Int) : Int := max lo (min hi x)

/-- Clamp a nonnegative oracle sample into `[0, hi]`; used to model a
truncated `fabsf`-based float expression with range `[0, hi]`. -/
def clampN (hi x : Nat) : Nat := min x hi

/-- The `face_emotion_t` enumeration (header lines 33-53).  The last
enumerator before `FACE_EMOTION_COUNT` is the blinking pseudo-state. -/
inductive FaceEmotion
  | neutral
  | happy
  | worried
  | sad
  | surprised
  | angry
  | sleepy
  | wink
  | love
  | playful
  | silly
  | smirk
  | cry
  | workingHard
  | excited
  | confused
  | cool
  | blinkState
  deriving Repr, DecidableEq, Fintype

/-- Numeric value of each enumerator (C assigns 0, 1, ... in order);
`FACE_EMOTION_COUNT` is 18. -/
def emotionCode : FaceEmotion → Nat
  | .neutral => 0
  | .happy => 1
  | .worried => 2
  | .sad => 3
  | .surprised => 4
  | .angry => 5
  | .sleepy => 6
  | .wink => 7
  | .love => 8
  | .playful => 9
  | .silly => 10
  | .smirk => 11
  | .cry => 12
  | .workingHard => 13
  | .excited => 14
  | .confused => 15
  | .cool => 16
  | .blinkState => 17

/-- Decode a numeric emotion value below `FACE_EMOTION_COUNT` back to
the enumeration (inverse of `emotionCode` on `[0, 17]`). -/
def decodeEmotion : Nat → FaceEmotion
  | 0 => .neutral
  | 1 => .happy
  | 2 => .worried
  | 3 => .sad
  | 4 => .surprised
  | 5 => .angry
  | 6 => .sleepy
  | 7 => .wink
  | 8 => .love
  | 9 => .playful
  | 10 => .silly
  | 11 => .smirk
  | 12 => .cry
  | 13 => .workingHard
  | 14 => .excited
  | 15 => .confused
  | 16 => .cool
  | _ => .blinkState

/-- The six blended base channels of `face_state_t`
(`left_eye_openness`, `right_eye_openness` are `uint8_t`;
`mouth_curve`, `left_eyebrow_angle`, `right_eyebrow_angle`,
`eyebrow_height` are `int8_t`). -/
structure Channels where
  leftEyeOpenness : Nat
  rightEyeOpenness : Nat
  mouthCurve : Int
  leftEyebrowAngle : Int
  rightEyebrowAngle : Int
  eyebrowHeight : Int
  deriving Repr, DecidableEq

/-- The shared secondary-effect fields of `face_state_t` that
`update_emotion_parameters` also writes (`blush_intensity`,
`sparkle_phase`, `heart_beat_phase`, all `uint8_t`). -/
structure Effects where
  blushIntensity : Nat
  sparklePhase : Nat
  heartBeatPhase : Nat
  deriving Repr, DecidableEq

/-- Blink sub-state of `face_state_t`. -/
structure BlinkSt where
  isBlinking : Bool
  blinkPhase : Nat
  lastBlinkTime : Nat
  deriving Repr, DecidableEq

/-- Idle-motion bookkeeping: the remaining animated fields of
`face_state_t` plus the function-local `static` variables of
`animation_timer_cb` (`bounce_counter`, `pupil_counter`, `idle`,
`diamond_direction`, `heart_direction`), which persist across ticks. -/
structure MotionSt where
  bounceCounter : Nat
  pupilCounter : Nat
  idleCounter : Nat
  bounceOffset : Int
  pupilOffsetX : Int
  pupilOffsetY : Int
  tearFallOffset : Nat
  sweatDropOffset : Nat
  diamondMouthPhase : Nat
  diamondDirection : Int
  heartDirection : Int
  deriving Repr, DecidableEq

/-- The relevant fields of `face_config_t`. -/
structure FaceConfig where
  autoBlink : Bool
  blinkInterval : Nat
  animationSpeed : Nat
  deriving Repr, DecidableEq

/-- The whole animation context (`face_state_t` without the LVGL
handles and pixel buffers; the container position set by
`face_set_position` is mirrored in `posX`/`posY`). -/
structure FaceState where
  inited : Bool
  config : FaceConfig
  currentEmotion : FaceEmotion
  targetEmotion : FaceEmotion
  transitionProgress : Nat
  ch : Channels
  fx : Effects
  blink : BlinkSt
  motion : MotionSt
  posX : Int
  posY : Int
  deriving Repr, DecidableEq

/-- The `update_emotion_parameters` switch (C lines 1099-1318).  It
returns the six out-parameter channel values AND the new values of the
shared `blush_intensity` / `sparkle_phase` / `heart_beat_phase`
fields, which the C function assigns directly into `face_state` as a
side effect of the lookup.  Note the `FACE_NEUTRAL` arm writes only
`blush_intensity`, leaving sparkle and heartbeat untouched, while all
other arms (and the `default` arm, reached for `FACE_BLINK`) write
all three. -/
def updateEmotionParameters (e : FaceEmotion) (fx : Effects) :
    Channels × Effects :=
  match e with
  | .neutral => (⟨100, 100, 0, 0, 0, 0⟩, { fx with blushIntensity := 0 })
  | .happy => (⟨96, 96, 90, -4, -4, -5⟩, ⟨82, 90, 40⟩)
  | .worried => (⟨78, 78, 28, 18, 18, -7⟩, ⟨20, 0, 0⟩)
  | .sad => (⟨60, 60, -75, -15, 15, 3⟩, ⟨0, 0, 0⟩)
  | .surprised => (⟨100, 100, 50, 0, 0, -10⟩, ⟨20, 60, 0⟩)
  | .angry => (⟨75, 75, -45, 25, -25, 5⟩, ⟨50, 0, 0⟩)
  | .sleepy => (⟨35, 35, -5, -5, 5, 8⟩, ⟨30, 0, 0⟩)
  | .wink => (⟨85, 15, 70, 8, -8, -2⟩, ⟨60, 75, 0⟩)
  | .love => (⟨95, 95, 80, 3, 3, -3⟩, ⟨90, 100, 100⟩)
  | .playful => (⟨78, 80, 110, 12, -8, 0⟩, ⟨45, 85, 0⟩)
  | .silly => (⟨95, 92, 75, 25, -18, 4⟩, ⟨55, 65, 0⟩)
  | .smirk => (⟨80, 75, 40, 15, -5, -5⟩, ⟨25, 50, 0⟩)
  | .cry => (⟨70, 70, -70, -15, 15, 8⟩, ⟨35, 0, 0⟩)
  | .workingHard => (⟨65, 65, 0, 22, -22, 4⟩, ⟨60, 0, 0⟩)
  | .excited => (⟨100, 100, 95, 8, 8, -8⟩, ⟨85, 100, 80⟩)
  | .confused => (⟨88, 75, 12, -18, 8, -3⟩, ⟨15, 0, 0⟩)
  | .cool => (⟨48, 48, 35, 5, -3, -4⟩, ⟨10, 40, 0⟩)
  | .blinkState => (⟨100, 100, 0, 0, 0, 0⟩, ⟨0, 0, 0⟩)

/-- The six channel values of an emotion's profile (the pure part of
the lookup; the effects argument is irrelevant to them). -/
def emotionChannels (e : FaceEmotion) : Channels :=
  (updateEmotionParameters e ⟨0, 0, 0⟩).1

/-- One linearly interpolated channel exactly as the transition code
computes it: `current + ((target - current) * progress) / 100` in C
`int` arithmetic (truncating division). -/
def lerpC (a b : Int) (p : Nat) : Int :=
  a + Int.tdiv ((b - a) * (p : Int)) 100

/-- The six assignments of C lines 1380-1391: every channel is blended
from the `current` profile toward the `target` profile and stored back
into its `uint8_t` / `int8_t` field. -/
def blendChannels (src tgt : Channels) (p : Nat) : Channels where
  leftEyeOpenness :=
    toUInt8 (lerpC (src.leftEyeOpenness : Int) (tgt.leftEyeOpenness : Int) p)
  rightEyeOpenness :=
    toUInt8 (lerpC (src.rightEyeOpenness : Int) (tgt.rightEyeOpenness : Int) p)
  mouthCurve := toInt8 (lerpC src.mouthCurve tgt.mouthCurve p)
  leftEyebrowAngle := toInt8 (lerpC src.leftEyebrowAngle tgt.leftEyebrowAngle p)
  rightEyebrowAngle := toInt8 (lerpC src.rightEyebrowAngle tgt.rightEyebrowAngle p)
  eyebrowHeight := toInt8 (lerpC src.eyebrowHeight tgt.eyebrowHeight p)

/-- `face_trigger_blink` (C lines 2065-2072). -/
def faceTriggerBlink (s : FaceState) : FaceState :=
  if ¬ s.inited ∨ s.blink.isBlinking then s
  else { s with blink := { s.blink with isBlinking := true, blinkPhase := 0 } }

/-- `face_set_emotion` (C lines 1981-2014).  The argument is the raw
numeric value of the `face_emotion_t` parameter: values at or above
`FACE_EMOTION_COUNT` (18) are rejected; everything below — including
`FACE_BLINK` = 17 — is accepted.  The non-smooth path runs the
profile lookup (with its side effect on the shared effect fields) and
snaps all six channels; the smooth path only resets
`transition_progress` to 0. -/
def faceSetEmotion (code : Nat) (smooth : Bool) (s : FaceState) : FaceState :=
  if ¬ s.inited ∨ 18 ≤ code then s
  else
    let e := decodeEmotion code
    let s1 := { s with targetEmotion := e }
    if ¬ smooth then
      let (six, fx1) := updateEmotionParameters e s1.fx
      { s1 with currentEmotion := e, transitionProgress := 100,
                ch := six, fx := fx1 }
    else
      { s1 with transitionProgress := 0 }

/-- `face_set_eye_openness` (C lines 2029-2041), on the already
converted `uint8_t` argument values. -/
def faceSetEyeOpenness (left right : Nat) (s : FaceState) : FaceState :=
  if ¬ s.inited then s
  else
    { s with ch := { s.ch with
        leftEyeOpenness := if 100 < left then 100 else left,
        rightEyeOpenness := if 100 < right then 100 else right } }

/-- A C call site `face_set_eye_openness(l, r)` with `int` arguments:
each argument is first converted to the `uint8_t` parameter type
(reduction mod 256). -/
def faceSetEyeOpennessCall (left right : Int) (s : FaceState) : FaceState :=
  faceSetEyeOpenness (toUInt8 left) (toUInt8 right) s

/-- `face_set_mouth_shape` (C lines 2043-2058), on the already
converted `int8_t` argument value. -/
def faceSetMouthShape (value : Int) (s : FaceState) : FaceState :=
  if ¬ s.inited then s
  else
    let v1 := if 100 < value then 100 else value
    let v2 := if v1 < -100 then -100 else v1
    { s with ch := { s.ch with mouthCurve := v2 } }

/-- A C call site `face_set_mouth_shape(v)` with an `int` argument:
the argument is first converted to the `int8_t` parameter type
(two's-complement wrap). -/
def faceSetMouthShapeCall (value : Int) (s : FaceState) : FaceState :=
  faceSetMouthShape (toInt8 value) s

/-- `face_set_auto_blink` (C lines 2060-2063).  Unlike every other
setter it has no initialization guard. -/
def faceSetAutoBlink (enable : Bool) (s : FaceState) : FaceState :=
  { s with config := { s.config with autoBlink := enable } }

/-- `face_set_position` (C lines 2074-2083); the LVGL container move
is mirrored as the `posX`/`posY` fields. -/
def faceSetPosition (x y : Int) (s : FaceState) : FaceState :=
  if ¬ s.inited then s
  else { s with posX := x, posY := y }

/-- The default configuration installed when `face_animation_init`
receives `NULL` (C lines 155-161). -/
def defaultConfig : FaceConfig :=
  { autoBlink := true, blinkInterval := 3000, animationSpeed := 30 }

/-- The context right after a successful first `face_animation_init`
(C lines 228-257): Neutral fully resolved, progress 100, blink idle,
`last_blink_time` stamped with the current tick.  All other fields are
still zero from the static initializer, and the function-local statics
hold their load-time values (`diamond_direction = 1`,
`heart_direction = -1`). -/
def initState (cfg : FaceConfig) (t0 : Nat) : FaceState where
  inited := true
  config := cfg
  currentEmotion := .neutral
  targetEmotion := .neutral
  transitionProgress := 100
  ch := ⟨100, 100, 0, 0, 0, 0⟩
  fx := ⟨0, 0, 0⟩
  blink := ⟨false, 0, t0⟩
  motion := ⟨0, 0, 0, 0, 0, 0, 0, 0, 0, 1, -1⟩
  posX := 0
  posY := 0

/-- The zero-initialized static `face_state` before any
initialization (C line 133), with the function-local statics at their
load-time values. -/
def zeroState : FaceState where
  inited := false
  config := ⟨false, 0, 0⟩
  currentEmotion := .neutral
  targetEmotion := .neutral
  transitionProgress := 0
  ch := ⟨0, 0, 0, 0, 0, 0⟩
  fx := ⟨0, 0, 0⟩
  blink := ⟨false, 0, 0⟩
  motion := ⟨0, 0, 0, 0, 0, 0, 0, 0, 0, 1, -1⟩
  posX := 0
  posY := 0

/-- The first, strictly ordered part of `animation_timer_cb`
(C lines 1322-1394): the blink state machine, the auto-blink timeout
check, and the transition blender, chained with `else if`.  Note that
the blender's source vector is the *profile* of `current_emotion`
looked up from the table (both `update_emotion_parameters` calls also
overwrite the shared effect fields), and that when progress reaches
100 the `current_emotion` is set to the target *before* the lookups. -/
def corePhase (now : Nat) (s : FaceState) : FaceState :=
  if s.blink.isBlinking then
    let p1 := (s.blink.blinkPhase + 20) % 256
    let b2 : BlinkSt :=
      if 100 ≤ p1 then ⟨false, 0, now⟩ else ⟨true, p1, s.blink.lastBlinkTime⟩
    let op := if b2.blinkPhase < 50 then 100 - 2 * b2.blinkPhase
              else 2 * (b2.blinkPhase - 50)
    { s with blink := b2,
             ch := { s.ch with leftEyeOpenness := op, rightEyeOpenness := op } }
  else if s.config.autoBlink ∧ s.config.blinkInterval < now - s.blink.lastBlinkTime then
    faceTriggerBlink s
  else if s.currentEmotion ≠ s.targetEmotion ∧ s.transitionProgress < 100 then
    let p1 := s.transitionProgress + 10
    let p2 := if 100 ≤ p1 then 100 else p1
    let cur2 := if 100 ≤ p1 then s.targetEmotion else s.currentEmotion
    let fx1 := (updateEmotionParameters s.targetEmotion s.fx).2
    let tgtSix := (updateEmotionParameters s.targetEmotion s.fx).1
    let fx2 := (updateEmotionParameters cur2 fx1).2
    let curSix := (updateEmotionParameters cur2 fx1).1
    { s with transitionProgress := p2, currentEmotion := cur2,
             fx := fx2, ch := blendChannels curSix tgtSix p2 }
  else s

/-- Per-tick oracle: the integer results of the float computations in
the idle-motion generator (each one a `sinf`/`cosf` expression
truncated to an integer by a C cast).  Every use site clamps its
sample to the interval fixed by the amplitude of the corresponding C
expression, so any real tick corresponds to some oracle value.
Fields `i1`/`i2` are consumed by the pupil switch, `i3`-`i5` and
`n1`-`n5` by the emotion overlay switch. -/
structure Oracle where
  i1 : Int
  i2 : Int
  i3 : Int
  i4 : Int
  i5 : Int
  n1 : Nat
  n2 : Nat
  n3 : Nat
  n4 : Nat
  n5 : Nat
  deriving Repr, DecidableEq

/-- The all-zero oracle (every float sample truncates to 0). -/
def oZero : Oracle := ⟨0, 0, 0, 0, 0, 0, 0, 0, 0, 0⟩

/-- Counter increments and the pupil-trajectory switch of
`animation_timer_cb` (C lines 1396-1530).  The `FACE_PLAYFUL` /
`FACE_LOVE` decay arm computes `(int8_t)(x * 0.8)`, which equals
truncating `4*x/5` for all `int8_t` inputs, so it is embedded
exactly. -/
def pupilStep (o : Oracle) (s : FaceState) : FaceState :=
  let m := { s.motion with bounceCounter := s.motion.bounceCounter + 1,
                           pupilCounter := s.motion.pupilCounter + 1 }
  let pc := m.pupilCounter
  let m2 :=
    match s.currentEmotion with
    | .happy =>
        { m with pupilOffsetX := clampI (-7) 7 o.i1, pupilOffsetY := clampI (-4) 4 o.i2 }
    | .worried =>
        { m with pupilOffsetX := clampI (-5) 5 o.i1, pupilOffsetY := clampI (-1) 1 o.i2 }
    | .playful | .love =>
        if pc % 100 < 50 then
          { m with pupilOffsetX := clampI (-6) 6 o.i1, pupilOffsetY := clampI (-4) 4 o.i2 }
        else
          { m with pupilOffsetX := Int.tdiv (4 * m.pupilOffsetX) 5,
                   pupilOffsetY := Int.tdiv (4 * m.pupilOffsetY) 5 }
    | .surprised => { m with pupilOffsetX := 0, pupilOffsetY := -8 }
    | .sleepy => { m with pupilOffsetX := 0, pupilOffsetY := 5 }
    | .silly =>
        { m with pupilOffsetX := if (pc / 5) % 2 = 1 then 10 else -10, pupilOffsetY := 0 }
    | .wink | .smirk => { m with pupilOffsetX := 5, pupilOffsetY := 0 }
    | .workingHard => { m with pupilOffsetX := 0, pupilOffsetY := 4 }
    | .excited =>
        { m with pupilOffsetX := if (pc / 3) % 2 = 1 then 9 else -9,
                 pupilOffsetY := if (pc / 5) % 2 = 1 then 7 else -7 }
    | .confused =>
        { m with pupilOffsetX := clampI (-7) 7 o.i1, pupilOffsetY := clampI (-5) 5 o.i2 }
    | .cool =>
        let cp := pc % 240
        if cp < 60 then { m with pupilOffsetX := clampI 0 8 o.i1, pupilOffsetY := 0 }
        else if cp < 120 then { m with pupilOffsetX := 8, pupilOffsetY := 0 }
        else if cp < 180 then { m with pupilOffsetX := clampI 0 8 o.i1, pupilOffsetY := 0 }
        else { m with pupilOffsetX := 0, pupilOffsetY := 0 }
    | _ => { m with pupilOffsetX := 0, pupilOffsetY := 0 }
  { s with motion := m2 }

/-- The tear-drop ramp (C lines 1532-1544): active only for Sad and
Cry, reset to 0 otherwise. -/
def tearStep (s : FaceState) : FaceState :=
  if s.currentEmotion = .sad ∨ s.currentEmotion = .cry then
    let t := (s.motion.tearFallOffset + 2) % 256
    { s with motion := { s.motion with tearFallOffset := if 80 < t then 0 else t } }
  else
    { s with motion := { s.motion with tearFallOffset := 0 } }

/-- The sweat-drop ramp (C lines 1546-1563): step 3 for Working-Hard,
step 1 for Sleepy, reset to 0 otherwise. -/
def sweatStep (s : FaceState) : FaceState :=
  if s.currentEmotion = .workingHard then
    let w := (s.motion.sweatDropOffset + 3) % 256
    { s with motion := { s.motion with sweatDropOffset := if 100 < w then 0 else w } }
  else if s.currentEmotion = .sleepy then
    let w := (s.motion.sweatDropOffset + 1) % 256
    { s with motion := { s.motion with sweatDropOffset := if 100 < w then 0 else w } }
  else
    { s with motion := { s.motion with sweatDropOffset := 0 } }

/-- The diamond-mouth pulsation (C lines 1565-1585): bounces between
50 and 100 in steps of 8 while Surprised, reset to 0 otherwise. -/
def diamondStep (s : FaceState) : FaceState :=
  if s.currentEmotion = .surprised then
    let d := toUInt8 ((s.motion.diamondMouthPhase : Int) + s.motion.diamondDirection * 8)
    let d2 := if 100 ≤ d then 100 else if d ≤ 50 then 50 else d
    let dir2 : Int :=
      if 100 ≤ d then -1 else if d ≤ 50 then 1 else s.motion.diamondDirection
    { s with motion := { s.motion with diamondMouthPhase := d2, diamondDirection := dir2 } }
  else
    { s with motion := { s.motion with diamondMouthPhase := 0 } }

/-- The per-emotion idle/bounce overlay switch of `animation_timer_cb`
(C lines 1587-1928).  `done` is the `transition_done` flag computed at
line 1587.  Writes into the six blended channels occur only inside
`if (transition_done)` guards (eye-openness writes additionally
require `!is_blinking`); bounce, pupil drift and the effect-phase
re-modulation run unconditionally.  Float expressions appear as
clamped oracle samples (see `Oracle`). -/
def overlayStep (o : Oracle) (s : FaceState) : FaceState :=
  let done := s.transitionProgress = 100
  match s.currentEmotion with
  | .happy =>
      let ch1 :=
        if done ∧ ¬ s.blink.isBlinking then
          let e := 87 + clampN 13 o.n1
          { s.ch with leftEyeOpenness := e, rightEyeOpenness := e }
        else s.ch
      let ch2 := if done then { ch1 with mouthCurve := 87 + (clampN 8 o.n4 : Int) } else ch1
      { s with motion := { s.motion with bounceOffset := clampI (-3) 3 o.i3 },
               ch := ch2,
               fx := { s.fx with sparklePhase := 65 + clampN 35 o.n2,
                                 blushIntensity := 72 + clampN 18 o.n3 } }
  | .worried =>
      let ch2 :=
        if done then
          let bl := (16 : Int) + (clampN 7 o.n1 : Int)
          { s.ch with leftEyebrowAngle := bl, rightEyebrowAngle := bl,
                      eyebrowHeight := -6 - (clampN 4 o.n2 : Int),
                      mouthCurve := 22 + (clampN 12 o.n3 : Int) }
        else s.ch
      { s with motion := { s.motion with bounceOffset := clampI (-2) 2 o.i3 }, ch := ch2 }
  | .love =>
      let ch2 :=
        if done ∧ ¬ s.blink.isBlinking then
          let e := 88 + clampN 12 o.n1
          { s.ch with leftEyeOpenness := e, rightEyeOpenness := e }
        else s.ch
      { s with motion := { s.motion with bounceOffset := clampI (-2) 2 o.i3 },
               ch := ch2,
               fx := { s.fx with sparklePhase := 72 + clampN 28 o.n2,
                                 heartBeatPhase := 65 + clampN 35 o.n3,
                                 blushIntensity := 80 + clampN 15 o.n4 } }
  | .angry =>
      let ch2 :=
        if done then
          { s.ch with mouthCurve := -42 + clampI (-8) 8 o.i4,
                      leftEyebrowAngle := 22 + clampI (-5) 5 o.i5,
                      rightEyebrowAngle := -22 - clampI (-5) 5 o.i5 }
        else s.ch
      { s with fx := { s.fx with blushIntensity := 40 + clampN 28 o.n1 },
               ch := ch2,
               motion := { s.motion with
                 bounceOffset := if s.motion.bounceCounter % 8 < 2 then 1 else 0 } }
  | .sleepy =>
      let ch2 :=
        if done ∧ ¬ s.blink.isBlinking then
          let v : Int := 35 - (clampN 20 o.n1 : Int)
          let e := toUInt8 (if v < 10 then 10 else v)
          { s.ch with leftEyeOpenness := e, rightEyeOpenness := e }
        else s.ch
      { s with motion := { s.motion with bounceOffset := clampI (-3) 3 o.i3 }, ch := ch2 }
  | .surprised =>
      let ch2 :=
        if done ∧ ¬ s.blink.isBlinking then
          let e := 93 + clampN 7 o.n1
          { s.ch with leftEyeOpenness := e, rightEyeOpenness := e }
        else s.ch
      { s with motion := { s.motion with
                 bounceOffset := (s.motion.bounceCounter % 4 : Int) - 2 },
               ch := ch2 }
  | .cry =>
      let ch2 :=
        if done ∧ ¬ s.blink.isBlinking then
          let v : Int := 65 - (clampN 20 o.n1 : Int)
          let e := toUInt8 (if v < 30 then 30 else v)
          { s.ch with leftEyeOpenness := e, rightEyeOpenness := e }
        else s.ch
      { s with motion := { s.motion with bounceOffset := clampI (-2) 2 o.i3 },
               ch := ch2,
               fx := { s.fx with blushIntensity := 27 + clampN 18 o.n2 } }
  | .sad =>
      { s with motion := { s.motion with bounceOffset := clampI (-1) 1 o.i3,
                                         pupilOffsetY := 3 + (clampN 3 o.n1 : Int) } }
  | .wink =>
      { s with fx := { s.fx with sparklePhase := 42 + clampN 38 o.n1 },
               motion := { s.motion with bounceOffset := clampI (-1) 1 o.i3 } }
  | .smirk =>
      let ch2 :=
        if done then
          { s.ch with leftEyebrowAngle := 12 + clampI (-8) 8 o.i4,
                      eyebrowHeight := -5 + clampI (-4) 4 o.i5 }
        else s.ch
      { s with ch := ch2,
               motion := { s.motion with pupilOffsetX := 3 + clampI (-4) 4 o.i1,
                                         bounceOffset := clampI (-1) 1 o.i3 },
               fx := { s.fx with sparklePhase := 25 + clampN 30 o.n1 } }
  | .playful =>
      let ch2 :=
        if done then { s.ch with mouthCurve := 105 + clampI (-10) 10 o.i4 } else s.ch
      { s with ch := ch2,
               fx := { s.fx with sparklePhase := 62 + clampN 28 o.n1 },
               motion := { s.motion with bounceOffset := clampI (-2) 2 o.i3 } }
  | .silly =>
      { s with motion := { s.motion with bounceOffset := clampI (-3) 3 o.i3 },
               fx := { s.fx with sparklePhase := 38 + clampN 37 o.n1 } }
  | .workingHard =>
      { s with motion := { s.motion with
                 bounceOffset := if s.motion.bounceCounter % 6 < 3 then 1 else -1 } }
  | .excited =>
      let ch2 :=
        if done ∧ ¬ s.blink.isBlinking then
          let e := 90 + clampN 10 o.n1
          { s.ch with leftEyeOpenness := e, rightEyeOpenness := e }
        else s.ch
      { s with motion := { s.motion with bounceOffset := clampI (-3) 3 o.i3 },
               ch := ch2,
               fx := { s.fx with sparklePhase := 80 + clampN 20 o.n2,
                                 blushIntensity := 75 + clampN 20 o.n3 } }
  | .confused =>
      let ch2 :=
        if done then
          { s.ch with leftEyebrowAngle := -18 + clampI (-12) 12 o.i4,
                      rightEyebrowAngle := 8 - clampI (-6) 6 o.i5,
                      eyebrowHeight := -3 - (clampN 4 o.n1 : Int) }
        else s.ch
      { s with motion := { s.motion with bounceOffset := clampI (-3) 3 o.i3 }, ch := ch2 }
  | .cool =>
      let ch2 :=
        if done ∧ ¬ s.blink.isBlinking then
          let sq := clampN 8 o.n2
          let e := 48 - (if 38 < sq then 38 else sq)
          { s.ch with leftEyeOpenness := e, rightEyeOpenness := e }
        else s.ch
      { s with motion := { s.motion with bounceOffset := clampI (-1) 1 o.i3 },
               fx := { s.fx with sparklePhase := 15 + clampN 30 o.n1 },
               ch := ch2 }
  | .neutral =>
      let idle2 := if done then s.motion.idleCounter + 1 else s.motion.idleCounter
      let gp := idle2 % 420
      let px : Int :=
        if gp < 160 then 0
        else if gp < 195 then clampI 0 7 o.i4
        else if gp < 240 then 7
        else if gp < 275 then clampI 0 7 o.i4
        else if gp < 340 then 0
        else if gp < 368 then -(clampN 5 o.n2 : Int)
        else if gp < 390 then -5
        else -(clampN 5 o.n2 : Int)
      let py : Int :=
        if gp < 340 then 0
        else if gp < 368 then (clampN 5 o.n3 : Int)
        else if gp < 390 then 5
        else (clampN 5 o.n3 : Int)
      let ch2 :=
        if done then
          let bp := idle2 % 280
          let chB :=
            if 230 ≤ bp then
              { s.ch with leftEyebrowAngle := (clampN 8 o.n4 : Int),
                          rightEyebrowAngle := -(clampN 2 o.n5 : Int),
                          eyebrowHeight := clampI (-4) 0 o.i5 }
            else
              { s.ch with leftEyebrowAngle := 0, rightEyebrowAngle := 0,
                          eyebrowHeight := 0 }
          let sp := idle2 % 360
          if 300 ≤ sp then { chB with mouthCurve := (clampN 14 o.n1 : Int) }
          else { chB with mouthCurve := 0 }
        else s.ch
      { s with motion := { s.motion with idleCounter := idle2,
                                         bounceOffset := clampI (-1) 1 o.i3,
                                         pupilOffsetX := px, pupilOffsetY := py },
               ch := ch2 }
  | .blinkState =>
      { s with motion := { s.motion with bounceOffset := 0 } }

/-- The sparkle decay for the nine non-sparkly emotions
(C lines 1930-1947): 2 per tick toward 0. -/
def sparkleDecayStep (s : FaceState) : FaceState :=
  if s.currentEmotion = .neutral ∨ s.currentEmotion = .angry ∨
     s.currentEmotion = .sad ∨ s.currentEmotion = .cry ∨
     s.currentEmotion = .sleepy ∨ s.currentEmotion = .surprised ∨
     s.currentEmotion = .workingHard ∨ s.currentEmotion = .confused ∨
     s.currentEmotion = .worried then
    if 0 < s.fx.sparklePhase then
      { s with fx := { s.fx with
          sparklePhase := if 2 ≤ s.fx.sparklePhase then s.fx.sparklePhase - 2 else 0 } }
    else s
  else s

/-- The heartbeat-phase update for emotions other than Love
(C lines 1949-1966).  `heart_beat_phase` is a `uint8_t`, so the
`+= heart_direction * 5` wraps modulo 256, the `<= 0` test is
equivalent to `== 0`, and the static `heart_direction` is flipped to
`+1` at the bottom and to `-1` at the top. -/
def heartbeatStep (s : FaceState) : FaceState :=
  if s.currentEmotion ≠ .love ∧ 0 < s.fx.heartBeatPhase then
    let h := toUInt8 ((s.fx.heartBeatPhase : Int) + s.motion.heartDirection * 5)
    if h = 0 then
      { s with fx := { s.fx with heartBeatPhase := 0 },
               motion := { s.motion with heartDirection := 1 } }
    else if 100 ≤ h then
      { s with fx := { s.fx with heartBeatPhase := 100 },
               motion := { s.motion with heartDirection := -1 } }
    else
      { s with fx := { s.fx with heartBeatPhase := h } }
  else s

/-- The idle-motion / decay part of `animation_timer_cb`
(C lines 1396-1971), in source order.  The final dirty-flag test and
the conditional redraw only repaint pixel buffers. -/
def postPhase (o : Oracle) (s : FaceState) : FaceState :=
  heartbeatStep (sparkleDecayStep (overlayStep o
    (diamondStep (sweatStep (tearStep (pupilStep o s))))))

/-- One full `animation_timer_cb` tick (C lines 1320-1979) at tick
time `now` with float oracle `o`. -/
def animationTimerCb (o : Oracle) (now : Nat) (s : FaceState) : FaceState :=
  if ¬ s.inited then s else postPhase o (corePhase now s)

/-- The shapes `draw_mouth` can draw. -/
inductive MouthShape
  | grittedTeeth
  | wideOpen (tongue : Bool) (sideSparkles : Bool)
  | oMouth (diamond : Bool)
  | frown (tears : Bool)
  | smileBar (slightSmile : Bool)
  deriving Repr, DecidableEq

/-- The shape-selection branch structure of `draw_mouth`
(C lines 787, 843, 864, 882, 904, 909, 996, 1016, 1062, 1067): the
Working-Hard override first, then the `curve` thresholds, each branch
with its sub-variants.  The diamond/oval choice compares
`diamond_mouth_phase / 100.0` (a `float`) against `0.3` (a `double`);
because `(float)(30/100.0)` is about `0.30000001`, above `0.3`, the diamond variant
is chosen exactly when the phase is at least 30. -/
def mouthShapeSelect (e : FaceEmotion) (curve : Int) (diamondPhase : Nat) :
    MouthShape :=
  if e = .workingHard then .grittedTeeth
  else if 65 < curve then .wideOpen (100 < curve) (85 < curve)
  else if 35 < curve ∧ curve < 65 then .oMouth (30 ≤ diamondPhase)
  else if curve < -35 then .frown (curve < -50)
  else .smileBar (5 < curve)

/-- Iterated timer ticks: `tickOrbit os nows s k` is the state after
`k` ticks from `s`, where tick `i` runs at time `nows i` with float
oracle `os i`. -/
def tickOrbit (os : Nat → Oracle) (nows : Nat → Nat) (s : FaceState) : Nat → FaceState
  | 0 => s
  | k + 1 => animationTimerCb (os k) (nows k) (tickOrbit os nows s k)

/-! Basic facts about the emotion table. -/

theorem emotionCode_lt (e : FaceEmotion) : emotionCode e < 18 := by
  cases e <;> decide

theorem decode_emotionCode (e : FaceEmotion) : decodeEmotion (emotionCode e) = e := by
  cases e <;> rfl

theorem updateEmotionParameters_fst (e : FaceEmotion) (fx : Effects) :
    (updateEmotionParameters e fx).1 = emotionChannels e := by
  cases e <;> rfl

/-- Blending an emotion's profile into itself at progress 100
reproduces the profile exactly (all profile literals fit their C
storage types). -/
theorem blendChannels_self (e : FaceEmotion) :
    blendChannels (emotionChannels e) (emotionChannels e) 100 = emotionChannels e := by
  cases e <;> decide

/-! Projection lemmas: the idle-motion half of the tick never touches
the control fields (initialization flag, configuration, emotions,
transition progress, blink sub-state, position). -/

theorem pupilStep_ctl (o : Oracle) (s : FaceState) :
    (pupilStep o s).inited = s.inited ∧ (pupilStep o s).config = s.config ∧
    (pupilStep o s).currentEmotion = s.currentEmotion ∧
    (pupilStep o s).targetEmotion = s.targetEmotion ∧
    (pupilStep o s).transitionProgress = s.transitionProgress ∧
    (pupilStep o s).blink = s.blink ∧ (pupilStep o s).ch = s.ch ∧
    (pupilStep o s).fx = s.fx := by
  unfold pupilStep
  refine ⟨rfl, rfl, rfl, rfl, rfl, rfl, rfl, rfl⟩

theorem tearStep_ctl (s : FaceState) :
    (tearStep s).inited = s.inited ∧ (tearStep s).config = s.config ∧
    (tearStep s).currentEmotion = s.currentEmotion ∧
    (tearStep s).targetEmotion = s.targetEmotion ∧
    (tearStep s).transitionProgress = s.transitionProgress ∧
    (tearStep s).blink = s.blink ∧ (tearStep s).ch = s.ch ∧
    (tearStep s).fx = s.fx := by
  unfold tearStep
  split <;> exact ⟨rfl, rfl, rfl, rfl, rfl, rfl, rfl, rfl⟩

theorem sweatStep_ctl (s : FaceState) :
    (sweatStep s).inited = s.inited ∧ (sweatStep s).config = s.config ∧
    (sweatStep s).currentEmotion = s.currentEmotion ∧
    (sweatStep s).targetEmotion = s.targetEmotion ∧
    (sweatStep s).transitionProgress = s.transitionProgress ∧
    (sweatStep s).blink = s.blink ∧ (sweatStep s).ch = s.ch ∧
    (sweatStep s).fx = s.fx := by
  unfold sweatStep
  split
  · exact ⟨rfl, rfl, rfl, rfl, rfl, rfl, rfl, rfl⟩
  · split <;> exact ⟨rfl, rfl, rfl, rfl, rfl, rfl, rfl, rfl⟩

theorem diamondStep_ctl (s : FaceState) :
    (diamondStep s).inited = s.inited ∧ (diamondStep s).config = s.config ∧
    (diamondStep s).currentEmotion = s.currentEmotion ∧
    (diamondStep s).targetEmotion = s.targetEmotion ∧
    (diamondStep s).transitionProgress = s.transitionProgress ∧
    (diamondStep s).blink = s.blink ∧ (diamondStep s).ch = s.ch ∧
    (diamondStep s).fx = s.fx := by
  unfold diamondStep
  split <;> exact ⟨rfl, rfl, rfl, rfl, rfl, rfl, rfl, rfl⟩

theorem sparkleDecayStep_ctl (s : FaceState) :
    (sparkleDecayStep s).inited = s.inited ∧ (sparkleDecayStep s).config = s.config ∧
    (sparkleDecayStep s).currentEmotion = s.currentEmotion ∧
    (sparkleDecayStep s).targetEmotion = s.targetEmotion ∧
    (sparkleDecayStep s).transitionProgress = s.transitionProgress ∧
    (sparkleDecayStep s).blink = s.blink ∧ (sparkleDecayStep s).ch = s.ch := by
  unfold sparkleDecayStep
  split
  · split <;> exact ⟨rfl, rfl, rfl, rfl, rfl, rfl, rfl⟩
  · exact ⟨rfl, rfl, rfl, rfl, rfl, rfl, rfl⟩

theorem heartbeatStep_ctl (s : FaceState) :
    (heartbeatStep s).inited = s.inited ∧ (heartbeatStep s).config = s.config ∧
    (heartbeatStep s).currentEmotion = s.currentEmotion ∧
    (heartbeatStep s).targetEmotion = s.targetEmotion ∧
    (heartbeatStep s).transitionProgress = s.transitionProgress ∧
    (heartbeatStep s).blink = s.blink ∧ (heartbeatStep s).ch = s.ch := by
  unfold heartbeatStep
  split
  · dsimp only
    split
    · exact ⟨rfl, rfl, rfl, rfl, rfl, rfl, rfl⟩
    · split <;> exact ⟨rfl, rfl, rfl, rfl, rfl, rfl, rfl⟩
  · exact ⟨rfl, rfl, rfl, rfl, rfl, rfl, rfl⟩

theorem overlayStep_ctl (o : Oracle) (s : FaceState) :
    (overlayStep o s).inited = s.inited ∧ (overlayStep o s).config = s.config ∧
    (overlayStep o s).currentEmotion = s.currentEmotion ∧
    (overlayStep o s).targetEmotion = s.targetEmotion ∧
    (overlayStep o s).transitionProgress = s.transitionProgress ∧
    (overlayStep o s).blink = s.blink := by
  unfold overlayStep
  cases s.currentEmotion <;> exact ⟨rfl, rfl, rfl, rfl, rfl, rfl⟩

theorem postPhase_ctl (o : Oracle) (s : FaceState) :
    (postPhase o s).inited = s.inited ∧ (postPhase o s).config = s.config ∧
    (postPhase o s).currentEmotion = s.currentEmotion ∧
    (postPhase o s).targetEmotion = s.targetEmotion ∧
    (postPhase o s).transitionProgress = s.transitionProgress ∧
    (postPhase o s).blink = s.blink := by
  unfold postPhase
  have h1 := pupilStep_ctl o s
  have h2 := tearStep_ctl (pupilStep o s)
  have h3 := sweatStep_ctl (tearStep (pupilStep o s))
  have h4 := diamondStep_ctl (sweatStep (tearStep (pupilStep o s)))
  have h5 := overlayStep_ctl o (diamondStep (sweatStep (tearStep (pupilStep o s))))
  have h6 := sparkleDecayStep_ctl
    (overlayStep o (diamondStep (sweatStep (tearStep (pupilStep o s)))))
  have h7 := heartbeatStep_ctl (sparkleDecayStep
    (overlayStep o (diamondStep (sweatStep (tearStep (pupilStep o s))))))
  refine ⟨?_, ?_, ?_, ?_, ?_, ?_⟩
  · rw [h7.1, h6.1, h5.1, h4.1, h3.1, h2.1, h1.1]
  · rw [h7.2.1, h6.2.1, h5.2.1, h4.2.1, h3.2.1, h2.2.1, h1.2.1]
  · rw [h7.2.2.1, h6.2.2.1, h5.2.2.1, h4.2.2.1, h3.2.2.1, h2.2.2.1, h1.2.2.1]
  · rw [h7.2.2.2.1, h6.2.2.2.1, h5.2.2.2.1, h4.2.2.2.1, h3.2.2.2.1, h2.2.2.2.1,
      h1.2.2.2.1]
  · rw [h7.2.2.2.2.1, h6.2.2.2.2.1, h5.2.2.2.2.1, h4.2.2.2.2.1, h3.2.2.2.2.1,
      h2.2.2.2.2.1, h1.2.2.2.2.1]
  · rw [h7.2.2.2.2.2.1, h6.2.2.2.2.2.1, h5.2.2.2.2.2, h4.2.2.2.2.2.1,
      h3.2.2.2.2.2.1, h2.2.2.2.2.2.1, h1.2.2.2.2.2.1]

/-- During an in-flight transition (progress not yet 100) the overlay
switch leaves all six blended channels alone: every channel write in
it sits under an `if (transition_done)` guard. -/
theorem overlayStep_ch (o : Oracle) (s : FaceState)
    (h : s.transitionProgress ≠ 100) : (overlayStep o s).ch = s.ch := by
  unfold overlayStep
  cases hc : s.currentEmotion <;> simp [h]

/-- The whole idle-motion half preserves the six blended channels
while a transition is in flight. -/
theorem postPhase_ch (o : Oracle) (s : FaceState)
    (h : s.transitionProgress ≠ 100) : (postPhase o s).ch = s.ch := by
  unfold postPhase
  have hp := pupilStep_ctl o s
  have ht := tearStep_ctl (pupilStep o s)
  have hw := sweatStep_ctl (tearStep (pupilStep o s))
  have hd := diamondStep_ctl (sweatStep (tearStep (pupilStep o s)))
  have hprog : (diamondStep (sweatStep (tearStep (pupilStep o s)))).transitionProgress
      = s.transitionProgress := by
    rw [hd.2.2.2.2.1, hw.2.2.2.2.1, ht.2.2.2.2.1, hp.2.2.2.2.1]
  have ho := overlayStep_ch o (diamondStep (sweatStep (tearStep (pupilStep o s))))
    (by rw [hprog]; exact h)
  have h6 := sparkleDecayStep_ctl
    (overlayStep o (diamondStep (sweatStep (tearStep (pupilStep o s)))))
  have h7 := heartbeatStep_ctl (sparkleDecayStep
    (overlayStep o (diamondStep (sweatStep (tearStep (pupilStep o s))))))
  rw [h7.2.2.2.2.2.2, h6.2.2.2.2.2.2, ho, hd.2.2.2.2.2.2.1, hw.2.2.2.2.2.2.1,
    ht.2.2.2.2.2.2.1, hp.2.2.2.2.2.2.1]

/-- The Neutral overlay never writes eye openness (its gated writes
cover only the brows and the mouth). -/
theorem overlayStep_eyes_neutral (o : Oracle) (s : FaceState)
    (h : s.currentEmotion = .neutral) :
    (overlayStep o s).ch.leftEyeOpenness = s.ch.leftEyeOpenness ∧
    (overlayStep o s).ch.rightEyeOpenness = s.ch.rightEyeOpenness := by
  unfold overlayStep
  rw [h]
  dsimp only
  constructor <;> split_ifs <;> rfl

/-- While Neutral is current, a full idle-motion pass preserves both
eye-openness channels. -/
theorem postPhase_eyes_neutral (o : Oracle) (s : FaceState)
    (h : s.currentEmotion = .neutral) :
    (postPhase o s).ch.leftEyeOpenness = s.ch.leftEyeOpenness ∧
    (postPhase o s).ch.rightEyeOpenness = s.ch.rightEyeOpenness := by
  unfold postPhase
  have hp := pupilStep_ctl o s
  have ht := tearStep_ctl (pupilStep o s)
  have hw := sweatStep_ctl (tearStep (pupilStep o s))
  have hd := diamondStep_ctl (sweatStep (tearStep (pupilStep o s)))
  have hcur : (diamondStep (sweatStep (tearStep (pupilStep o s)))).currentEmotion
      = FaceEmotion.neutral := by
    rw [hd.2.2.1, hw.2.2.1, ht.2.2.1, hp.2.2.1, h]
  have ho := overlayStep_eyes_neutral o
    (diamondStep (sweatStep (tearStep (pupilStep o s)))) hcur
  have h6 := sparkleDecayStep_ctl
    (overlayStep o (diamondStep (sweatStep (tearStep (pupilStep o s)))))
  have h7 := heartbeatStep_ctl (sparkleDecayStep
    (overlayStep o (diamondStep (sweatStep (tearStep (pupilStep o s))))))
  constructor
  · rw [h7.2.2.2.2.2.2, h6.2.2.2.2.2.2, ho.1, hd.2.2.2.2.2.2.1, hw.2.2.2.2.2.2.1,
      ht.2.2.2.2.2.2.1, hp.2.2.2.2.2.2.1]
  · rw [h7.2.2.2.2.2.2, h6.2.2.2.2.2.2, ho.2, hd.2.2.2.2.2.2.1, hw.2.2.2.2.2.2.1,
      ht.2.2.2.2.2.2.1, hp.2.2.2.2.2.2.1]

/-! The channel-range invariant of claim C6 (in its amended form) and
the auxiliary facts needed to push it through every operation. -/

/-- Channel ranges that actually hold at every observation point: eye
openness stays in `[0, 100]`; the mouth curve stays in `[-100, 115]`
(the Playful profile is 110 and its idle pulsation reaches 115). -/
def ChOK (c : Channels) : Prop :=
  c.leftEyeOpenness ≤ 100 ∧ c.rightEyeOpenness ≤ 100 ∧
  -100 ≤ c.mouthCurve ∧ c.mouthCurve ≤ 115

instance (c : Channels) : Decidable (ChOK c) := by
  unfold ChOK; infer_instance

/-- Every table profile satisfies the channel ranges. -/
theorem emotionChannels_chOK : ∀ e : FaceEmotion, ChOK (emotionChannels e) := by
  decide

/-- Every value the transition blender can store satisfies the channel
ranges: the blend of any two profiles at any of the ten reachable
progress values stays inside. -/
theorem blend_profile_chOK :
    ∀ (a b : FaceEmotion) (k : Fin 10),
      ChOK (blendChannels (emotionChannels a) (emotionChannels b) (10 * (k.1 + 1))) := by
  decide

/-! Machinery for the scripted transition scenarios (claims about
`setEmotion` with `smooth = true` followed by timer ticks). -/

/-- Control-field snapshot during a scripted transition: the context
is initialized, not blinking, the last blink was stamped at time 0,
the default auto-blink configuration is installed, and
current/target/progress hold the given values. -/
def Ready (c t : FaceEmotion) (p : Nat) (s : FaceState) : Prop :=
  s.inited = true ∧ s.blink.isBlinking = false ∧ s.blink.lastBlinkTime = 0 ∧
  s.config.autoBlink = true ∧ s.config.blinkInterval = 3000 ∧
  s.currentEmotion = c ∧ s.targetEmotion = t ∧ s.transitionProgress = p

/-- A non-final blender step: from progress `p` with `p + 10 < 100`,
`corePhase` advances progress by exactly 10 and stores the blend of
the two table profiles; `current_emotion` stays at the old value. -/
theorem corePhase_transStep (c t : FaceEmotion) (hct : c ≠ t) (p now : Nat)
    (hp : p + 10 < 100) (hnow : now ≤ 3000) (s : FaceState) (hs : Ready c t p s) :
    Ready c t (p + 10) (corePhase now s) ∧
    (corePhase now s).ch
      = blendChannels (emotionChannels c) (emotionChannels t) (p + 10) := by
  obtain ⟨h1, h2, h3, h4, h5, h6, h7, h8⟩ := hs
  have hnb : ¬ (s.config.autoBlink = true ∧
      s.config.blinkInterval < now - s.blink.lastBlinkTime) := by
    rw [h3, h5]; omega
  have hne : ¬ (s.currentEmotion = s.targetEmotion) := by
    rw [h6, h7]; exact hct
  have hlt : s.transitionProgress < 100 := by omega
  have hnc : ¬ (100 ≤ s.transitionProgress + 10) := by omega
  unfold corePhase
  rw [h2]
  simp only [Bool.false_eq_true, if_false, if_neg hnb,
    if_pos (And.intro hne hlt), if_neg hnc, updateEmotionParameters_fst]
  refine ⟨⟨h1, h2, h3, h4, h5, h6, h7, by rw [h8]⟩, by rw [h6, h7, h8]⟩

/-- The final blender step: from progress 90 the step clamps progress
to 100, sets `current_emotion` to the target *before* the profile
lookups, and therefore stores the target profile exactly. -/
theorem corePhase_transFinal (c t : FaceEmotion) (hct : c ≠ t) (now : Nat)
    (hnow : now ≤ 3000) (s : FaceState) (hs : Ready c t 90 s) :
    Ready t t 100 (corePhase now s) ∧
    (corePhase now s).ch = emotionChannels t := by
  obtain ⟨h1, h2, h3, h4, h5, h6, h7, h8⟩ := hs
  have hnb : ¬ (s.config.autoBlink = true ∧
      s.config.blinkInterval < now - s.blink.lastBlinkTime) := by
    rw [h3, h5]; omega
  have hne : ¬ (s.currentEmotion = s.targetEmotion) := by
    rw [h6, h7]; exact hct
  have hlt : s.transitionProgress < 100 := by omega
  have hc : 100 ≤ s.transitionProgress + 10 := by omega
  unfold corePhase
  rw [h2]
  simp only [Bool.false_eq_true, if_false, if_neg hnb,
    if_pos (And.intro hne hlt), if_pos hc, updateEmotionParameters_fst]
  exact ⟨⟨h1, h2, h3, h4, h5, h7, h7, rfl⟩, by rw [h7, blendChannels_self]⟩

/-- The idle-motion half of the tick preserves a `Ready` snapshot. -/
theorem postPhase_ready (c t : FaceEmotion) (p : Nat) (o : Oracle) (s : FaceState)
    (hs : Ready c t p s) : Ready c t p (postPhase o s) := by
  obtain ⟨h1, h2, h3, h4, h5, h6, h7, h8⟩ := hs
  have hc := postPhase_ctl o s
  exact ⟨by rw [hc.1]; exact h1, by rw [hc.2.2.2.2.2]; exact h2,
    by rw [hc.2.2.2.2.2]; exact h3, by rw [hc.2.1]; exact h4,
    by rw [hc.2.1]; exact h5, by rw [hc.2.2.1]; exact h6,
    by rw [hc.2.2.2.1]; exact h7, by rw [hc.2.2.2.2.1]; exact h8⟩

/-- A non-final full tick during a transition. -/
theorem tick_transStep (c t : FaceEmotion) (hct : c ≠ t) (p now : Nat)
    (hp : p + 10 < 100) (hnow : now ≤ 3000) (o : Oracle) (s : FaceState)
    (hs : Ready c t p s) :
    Ready c t (p + 10) (animationTimerCb o now s) ∧
    (animationTimerCb o now s).ch
      = blendChannels (emotionChannels c) (emotionChannels t) (p + 10) := by
  have hcore := corePhase_transStep c t hct p now hp hnow s hs
  have hae : animationTimerCb o now s = postPhase o (corePhase now s) := by
    unfold animationTimerCb
    rw [hs.1]
    rfl
  rw [hae]
  refine ⟨postPhase_ready c t (p + 10) o _ hcore.1, ?_⟩
  rw [postPhase_ch o _ (by rw [hcore.1.2.2.2.2.2.2.2]; omega), hcore.2]

/-- The final full tick of a transition: `current_emotion` has become
the target and progress is 100 (the idle overlay of the now-current
target emotion may subsequently re-modulate channels, which is why
the exact profile equality is stated of the blender output
`corePhase`). -/
theorem tick_transFinal (c t : FaceEmotion) (hct : c ≠ t) (now : Nat)
    (hnow : now ≤ 3000) (o : Oracle) (s : FaceState) (hs : Ready c t 90 s) :
    Ready t t 100 (animationTimerCb o now s) := by
  have hcore := corePhase_transFinal c t hct now hnow s hs
  have hae : animationTimerCb o now s = postPhase o (corePhase now s) := by
    unfold animationTimerCb
    rw [hs.1]
    rfl
  rw [hae]
  exact postPhase_ready t t 100 o _ hcore.1

/-- The first nine ticks of a scripted transition: progress climbs in
exact steps of 10 and the channels hold the profile-to-profile blend
at the current progress. -/
theorem orbit_trans (c t : FaceEmotion) (hct : c ≠ t) (os : Nat → Oracle)
    (nows : Nat → Nat) (hn : ∀ k, k ≤ 9 → nows k ≤ 3000) (s : FaceState)
    (hs : Ready c t 0 s) :
    ∀ k, k ≤ 9 → Ready c t (10 * k) (tickOrbit os nows s k) ∧
      (1 ≤ k → (tickOrbit os nows s k).ch
        = blendChannels (emotionChannels c) (emotionChannels t) (10 * k)) := by
  intro k
  induction k with
  | zero =>
      intro _
      exact ⟨hs, by omega⟩
  | succ n ih =>
      intro hk
      have hr := (ih (by omega)).1
      have step := tick_transStep c t hct (10 * n) (nows n) (by omega)
        (hn n (by omega)) (os n) _ hr
      have h10 : 10 * n + 10 = 10 * (n + 1) := by ring
      exact ⟨by rw [← h10]; exact step.1, fun _ => by rw [← h10]; exact step.2⟩

/-! Machinery for the blink cycle (claim about `triggerBlink` and the
five ticks that follow). -/

/-- A non-final blink tick in `corePhase`: phase advances by 20 and
the blink stays active. -/
theorem corePhase_blinkStep (now : Nat) (s : FaceState) (hb : s.blink.isBlinking = true)
    (hp : s.blink.blinkPhase + 20 < 100) :
    (corePhase now s).inited = s.inited ∧
    (corePhase now s).currentEmotion = s.currentEmotion ∧
    (corePhase now s).blink.isBlinking = true ∧
    (corePhase now s).blink.blinkPhase = s.blink.blinkPhase + 20 := by
  have hm : (s.blink.blinkPhase + 20) % 256 = s.blink.blinkPhase + 20 :=
    Nat.mod_eq_of_lt (by omega)
  have hnc : ¬ (100 ≤ s.blink.blinkPhase + 20) := by omega
  unfold corePhase
  rw [hb]
  simp only [if_true, hm, if_neg hnc]
  refine ⟨?_, ?_, ?_, ?_⟩ <;> trivial

/-- The final blink tick in `corePhase`: from phase 80 the phase
reaches 100, so it resets to 0, the blink ends, the blink timestamp
is refreshed, and both eyes are set to openness 100 (the `phase < 50`
arm computes `100 - 2*0`), whatever openness held before the blink. -/
theorem corePhase_blinkFinish (now : Nat) (s : FaceState) (hb : s.blink.isBlinking = true)
    (hp : s.blink.blinkPhase = 80) :
    (corePhase now s).inited = s.inited ∧
    (corePhase now s).currentEmotion = s.currentEmotion ∧
    (corePhase now s).blink.isBlinking = false ∧
    (corePhase now s).blink.blinkPhase = 0 ∧
    (corePhase now s).ch.leftEyeOpenness = 100 ∧
    (corePhase now s).ch.rightEyeOpenness = 100 := by
  have hm : (s.blink.blinkPhase + 20) % 256 = 100 := by rw [hp]
  have hc : (100 : Nat) ≤ 100 := le_refl 100
  unfold corePhase
  rw [hb]
  simp only [if_true, hm, if_pos hc]
  refine ⟨?_, ?_, ?_, ?_, ?_, ?_⟩ <;> trivial

/-- A non-final blink tick, full `animation_timer_cb`. -/
theorem tick_blinkStep (o : Oracle) (now : Nat) (s : FaceState)
    (h1 : s.inited = true) (hcur : s.currentEmotion = .neutral)
    (hb : s.blink.isBlinking = true) (hp : s.blink.blinkPhase + 20 < 100) :
    (animationTimerCb o now s).inited = true ∧
    (animationTimerCb o now s).currentEmotion = .neutral ∧
    (animationTimerCb o now s).blink.isBlinking = true ∧
    (animationTimerCb o now s).blink.blinkPhase = s.blink.blinkPhase + 20 := by
  have hcore := corePhase_blinkStep now s hb hp
  have hae : animationTimerCb o now s = postPhase o (corePhase now s) := by
    unfold animationTimerCb
    rw [h1]
    rfl
  have hpc := postPhase_ctl o (corePhase now s)
  have hbl : (postPhase o (corePhase now s)).blink = (corePhase now s).blink :=
    hpc.2.2.2.2.2
  rw [hae]
  refine ⟨?_, ?_, ?_, ?_⟩
  · rw [hpc.1, hcore.1, h1]
  · rw [hpc.2.2.1, hcore.2.1, hcur]
  · rw [hbl, hcore.2.2.1]
  · rw [hbl, hcore.2.2.2]

/-- The final blink tick, full `animation_timer_cb`, while Neutral is
current (whose idle overlay never writes eye openness): the blink ends
with both eyes at 100. -/
theorem tick_blinkFinish (o : Oracle) (now : Nat) (s : FaceState)
    (h1 : s.inited = true) (hcur : s.currentEmotion = .neutral)
    (hb : s.blink.isBlinking = true) (hp : s.blink.blinkPhase = 80) :
    (animationTimerCb o now s).blink.isBlinking = false ∧
    (animationTimerCb o now s).blink.blinkPhase = 0 ∧
    (animationTimerCb o now s).ch.leftEyeOpenness = 100 ∧
    (animationTimerCb o now s).ch.rightEyeOpenness = 100 := by
  have hcore := corePhase_blinkFinish now s hb hp
  have hae : animationTimerCb o now s = postPhase o (corePhase now s) := by
    unfold animationTimerCb
    rw [h1]
    rfl
  have hpc := postPhase_ctl o (corePhase now s)
  have hbl : (postPhase o (corePhase now s)).blink = (corePhase now s).blink :=
    hpc.2.2.2.2.2
  have heyes := postPhase_eyes_neutral o (corePhase now s)
    (by rw [hcore.2.1, hcur])
  rw [hae]
  refine ⟨?_, ?_, ?_, ?_⟩
  · rw [hbl, hcore.2.2.1]
  · rw [hbl, hcore.2.2.2.1]
  · rw [heyes.1, hcore.2.2.2.2.1]
  · rw [heyes.2, hcore.2.2.2.2.2]

/-- The complete blink cycle: from a just-triggered blink
(`blinkPhase = 0`) under the Neutral emotion, exactly five ticks later
the blink is over and both eyes are at openness 100 — regardless of
what the eye openness was before the blink. -/
theorem blink_cycle_five (os : Nat → Oracle) (nows : Nat → Nat) (s : FaceState)
    (h1 : s.inited = true) (hcur : s.currentEmotion = .neutral)
    (hb : s.blink.isBlinking = true) (hp : s.blink.blinkPhase = 0) :
    (tickOrbit os nows s 5).blink.isBlinking = false ∧
    (tickOrbit os nows s 5).blink.blinkPhase = 0 ∧
    (tickOrbit os nows s 5).ch.leftEyeOpenness = 100 ∧
    (tickOrbit os nows s 5).ch.rightEyeOpenness = 100 := by
  have f1 := tick_blinkStep (os 0) (nows 0) s h1 hcur hb (by omega)
  have f2 := tick_blinkStep (os 1) (nows 1) _ f1.1 f1.2.1 f1.2.2.1 (by omega)
  have f3 := tick_blinkStep (os 2) (nows 2) _ f2.1 f2.2.1 f2.2.2.1 (by omega)
  have f4 := tick_blinkStep (os 3) (nows 3) _ f3.1 f3.2.1 f3.2.2.1 (by omega)
  have hp4 : (tickOrbit os nows s 4).blink.blinkPhase = 80 := by
    have := f4.2.2.2
    rw [f3.2.2.2, f2.2.2.2, f1.2.2.2, hp] at this
    exact this
  exact tick_blinkFinish (os 4) (nows 4) _ f4.1 f4.2.1 f4.2.2.1 hp4

/-! Machinery for the channel-range invariant. -/

set_option maxHeartbeats 1000000 in
/-- The idle overlay keeps every channel inside the ranges: each of
its channel writes is a constant plus a clamped oracle sample, all of
which stay inside `[0, 100]` for the eyes and `[-100, 115]` for the
mouth. -/
theorem chOK_overlay (o : Oracle) (s : FaceState) (h : ChOK s.ch) :
    ChOK (overlayStep o s).ch := by
  obtain ⟨hl, hr, hm1, hm2⟩ := h
  unfold overlayStep
  cases hc : s.currentEmotion <;>
    simp only [ChOK, clampI, clampN, toUInt8] <;>
    first
      | exact ⟨hl, hr, hm1, hm2⟩
      | (split_ifs <;> (try dsimp only) <;> (refine ⟨?_, ?_, ?_, ?_⟩ <;> omega))

/-- Auxiliary invariant: the channel ranges, plus the fact that the
transition progress is always a multiple of 10 below 101 (it is only
ever set to 0, to 100, or advanced by 10 and clamped at 100). -/
def InvAux (s : FaceState) : Prop :=
  ChOK s.ch ∧ s.transitionProgress % 10 = 0 ∧ s.transitionProgress ≤ 100

set_option maxHeartbeats 1000000 in
/-- The blink / auto-blink / blender phase of the tick preserves the
auxiliary invariant. -/
theorem invAux_corePhase (now : Nat) (s : FaceState) (h : InvAux s) :
    InvAux (corePhase now s) := by
  obtain ⟨⟨hl, hr, hm1, hm2⟩, hp10, hp100⟩ := h
  unfold corePhase
  split
  · dsimp only
    by_cases hc1 : 100 ≤ (s.blink.blinkPhase + 20) % 256
    · rw [if_pos hc1]
      simp only [InvAux, ChOK]
      try dsimp only
      split_ifs <;> refine ⟨⟨?_, ?_, ?_, ?_⟩, ?_, ?_⟩ <;> omega
    · rw [if_neg hc1]
      simp only [InvAux, ChOK]
      try dsimp only
      split_ifs <;> refine ⟨⟨?_, ?_, ?_, ?_⟩, ?_, ?_⟩ <;> omega
  · split
    · unfold faceTriggerBlink
      split
      · exact ⟨⟨hl, hr, hm1, hm2⟩, hp10, hp100⟩
      · exact ⟨⟨hl, hr, hm1, hm2⟩, hp10, hp100⟩
    · split
      · dsimp only
        by_cases hge : 100 ≤ s.transitionProgress + 10
        · rw [if_pos hge, if_pos hge]
          simp only [InvAux]
          try dsimp only
          refine ⟨?_, by norm_num, by norm_num⟩
          have hb := blend_profile_chOK s.targetEmotion s.targetEmotion
            ⟨9, by norm_num⟩
          simp only [updateEmotionParameters_fst]
          simpa using hb
        · rw [if_neg hge, if_neg hge]
          simp only [InvAux]
          try dsimp only
          refine ⟨?_, by omega, by omega⟩
          have he : s.transitionProgress + 10
              = 10 * (s.transitionProgress / 10 + 1) := by omega
          have hb := blend_profile_chOK s.currentEmotion s.targetEmotion
            ⟨s.transitionProgress / 10, by omega⟩
          simp only [updateEmotionParameters_fst, he]
          exact hb
      · exact ⟨⟨hl, hr, hm1, hm2⟩, hp10, hp100⟩

/-- The idle-motion phase of the tick preserves the auxiliary
invariant. -/
theorem invAux_postPhase (o : Oracle) (s : FaceState) (h : InvAux s) :
    InvAux (postPhase o s) := by
  obtain ⟨hch, hp10, hp100⟩ := h
  unfold postPhase
  have hp := pupilStep_ctl o s
  have ht := tearStep_ctl (pupilStep o s)
  have hw := sweatStep_ctl (tearStep (pupilStep o s))
  have hd := diamondStep_ctl (sweatStep (tearStep (pupilStep o s)))
  have hch4 : (diamondStep (sweatStep (tearStep (pupilStep o s)))).ch = s.ch := by
    rw [hd.2.2.2.2.2.2.1, hw.2.2.2.2.2.2.1, ht.2.2.2.2.2.2.1, hp.2.2.2.2.2.2.1]
  have ho := chOK_overlay o (diamondStep (sweatStep (tearStep (pupilStep o s))))
    (by rw [hch4]; exact hch)
  have hoc := overlayStep_ctl o (diamondStep (sweatStep (tearStep (pupilStep o s))))
  have h6 := sparkleDecayStep_ctl
    (overlayStep o (diamondStep (sweatStep (tearStep (pupilStep o s)))))
  have h7 := heartbeatStep_ctl (sparkleDecayStep
    (overlayStep o (diamondStep (sweatStep (tearStep (pupilStep o s))))))
  refine ⟨?_, ?_, ?_⟩
  · rw [h7.2.2.2.2.2.2, h6.2.2.2.2.2.2]
    exact ho
  · rw [h7.2.2.2.2.1, h6.2.2.2.2.1, hoc.2.2.2.2.1, hd.2.2.2.2.1, hw.2.2.2.2.1,
      ht.2.2.2.2.1, hp.2.2.2.2.1]
    exact hp10
  · rw [h7.2.2.2.2.1, h6.2.2.2.2.1, hoc.2.2.2.2.1, hd.2.2.2.2.1, hw.2.2.2.2.1,
      ht.2.2.2.2.1, hp.2.2.2.2.1]
    exact hp100

theorem invAux_tick (o : Oracle) (now : Nat) (s : FaceState) (h : InvAux s) :
    InvAux (animationTimerCb o now s) := by
  unfold animationTimerCb
  split
  · exact h
  · exact invAux_postPhase o _ (invAux_corePhase now s h)

theorem invAux_init (cfg : FaceConfig) (t0 : Nat) : InvAux (initState cfg t0) := by
  refine ⟨⟨?_, ?_, ?_, ?_⟩, ?_, ?_⟩ <;> norm_num [initState, ChOK]

theorem invAux_setEmotion (code : Nat) (smooth : Bool) (s : FaceState)
    (h : InvAux s) : InvAux (faceSetEmotion code smooth s) := by
  unfold faceSetEmotion
  split
  · exact h
  · dsimp only
    split
    · have hb := emotionChannels_chOK (decodeEmotion code)
      simp only [InvAux]
      try dsimp only
      simp only [updateEmotionParameters_fst]
      exact ⟨hb, by norm_num, by norm_num⟩
    · exact ⟨h.1, by norm_num, by norm_num⟩

theorem invAux_setEyeOpenness (l r : Nat) (s : FaceState) (h : InvAux s) :
    InvAux (faceSetEyeOpenness l r s) := by
  obtain ⟨⟨hl, hr, hm1, hm2⟩, hp10, hp100⟩ := h
  unfold faceSetEyeOpenness
  split
  · exact ⟨⟨hl, hr, hm1, hm2⟩, hp10, hp100⟩
  · refine ⟨⟨?_, ?_, hm1, hm2⟩, hp10, hp100⟩ <;> dsimp only <;> split_ifs <;> omega

theorem invAux_setMouthShape (v : Int) (s : FaceState) (h : InvAux s) :
    InvAux (faceSetMouthShape v s) := by
  obtain ⟨⟨hl, hr, hm1, hm2⟩, hp10, hp100⟩ := h
  unfold faceSetMouthShape
  split
  · exact ⟨⟨hl, hr, hm1, hm2⟩, hp10, hp100⟩
  · refine ⟨⟨hl, hr, ?_, ?_⟩, hp10, hp100⟩ <;> dsimp only <;> split_ifs <;> omega

theorem invAux_triggerBlink (s : FaceState) (h : InvAux s) :
    InvAux (faceTriggerBlink s) := by
  unfold faceTriggerBlink
  split
  · exact h
  · exact ⟨h.1, h.2.1, h.2.2⟩

/-- Every state reachable through the public interface: a freshly
initialized context (any configuration, any start time), closed under
timer ticks and all public setters (with raw C argument values, so
the parameter-type conversions are included). -/
inductive Reachable : FaceState → Prop
  | init (cfg : FaceConfig) (t0 : Nat) : Reachable (initState cfg t0)
  | tick (o : Oracle) (now : Nat) (s : FaceState) :
      Reachable s → Reachable (animationTimerCb o now s)
  | setEmotion (code : Nat) (smooth : Bool) (s : FaceState) :
      Reachable s → Reachable (faceSetEmotion code smooth s)
  | setEyeOpenness (l r : Int) (s : FaceState) :
      Reachable s → Reachable (faceSetEyeOpennessCall l r s)
  | setMouthShape (v : Int) (s : FaceState) :
      Reachable s → Reachable (faceSetMouthShapeCall v s)
  | setAutoBlink (b : Bool) (s : FaceState) :
      Reachable s → Reachable (faceSetAutoBlink b s)
  | triggerBlink (s : FaceState) : Reachable s → Reachable (faceTriggerBlink s)
  | setPosition (x y : Int) (s : FaceState) :
      Reachable s → Reachable (faceSetPosition x y s)

/-- The auxiliary invariant holds at every reachable state. -/
theorem reachable_invAux (s : FaceState) (h : Reachable s) : InvAux s := by
  induction h with
  | init cfg t0 => exact invAux_init cfg t0
  | tick o now s _ ih => exact invAux_tick o now s ih
  | setEmotion code smooth s _ ih => exact invAux_setEmotion code smooth s ih
  | setEyeOpenness l r s _ ih => exact invAux_setEyeOpenness _ _ s ih
  | setMouthShape v s _ ih => exact invAux_setMouthShape _ s ih
  | setAutoBlink b s _ ih => exact ⟨ih.1, ih.2.1, ih.2.2⟩
  | triggerBlink s _ ih => exact invAux_triggerBlink s ih
  | setPosition x y s _ ih =>
      unfold faceSetPosition
      split
      · exact ih
      · exact ⟨ih.1, ih.2.1, ih.2.2⟩

/-! Scripted scenario states used by the claim theorems. -/

/-- The convergence scenario: `setEmotion(E1, false)` then
`setEmotion(E2, true)` from a freshly initialized default context,
followed by ticks every 30 ms. -/
def c3Trace (e1 e2 : FaceEmotion) (os : Nat → Oracle) : Nat → FaceState :=
  tickOrbit os (fun k => 30 * (k + 1))
    (faceSetEmotion (emotionCode e2) true
      (faceSetEmotion (emotionCode e1) false (initState defaultConfig 0)))

instance decidableReady (c t : FaceEmotion) (p : Nat) (s : FaceState) :
    Decidable (Ready c t p s) := by
  unfold Ready
  infer_instance

/-- After `setEmotion(E1, false); setEmotion(E2, true)` from a fresh
default context the control fields form a `Ready` snapshot at
progress 0. -/
theorem c3Trace_ready : ∀ e1 e2 : FaceEmotion,
    Ready e1 e2 0 (faceSetEmotion (emotionCode e2) true
      (faceSetEmotion (emotionCode e1) false (initState defaultConfig 0))) := by
  decide

/-- Re-targeting with `setEmotion(E, true)` from any initialized,
non-blinking state keeps `current_emotion`, resets the progress to 0,
and leaves the channels untouched. -/
theorem setEmotion_smooth_ready (e2 : FaceEmotion) (s : FaceState)
    (h1 : s.inited = true) (h2 : s.blink.isBlinking = false)
    (h3 : s.blink.lastBlinkTime = 0) (h4 : s.config.autoBlink = true)
    (h5 : s.config.blinkInterval = 3000) :
    Ready s.currentEmotion e2 0 (faceSetEmotion (emotionCode e2) true s) ∧
    (faceSetEmotion (emotionCode e2) true s).ch = s.ch := by
  have hguard : ¬ (¬ s.inited = true ∨ 18 ≤ emotionCode e2) := by
    simp [h1, Nat.not_le.mpr (emotionCode_lt e2)]
  unfold faceSetEmotion
  rw [if_neg hguard]
  simp only [Bool.not_eq_true, if_neg]
  rw [if_neg (by simp)]
  exact ⟨⟨h1, h2, h3, h4, h5, rfl, decode_emotionCode e2, rfl⟩, rfl⟩

/-- The mid-flight retarget scenario used as the concrete
counterexample for claim C1: initialize, head from Neutral toward
Sleepy for five ticks, then retarget to Happy. -/
def retargetProbe : FaceState :=
  tickOrbit (fun _ => oZero) (fun k => 30 * (k + 1))
    (faceSetEmotion 6 true (initState defaultConfig 0)) 5

/-- C1 counterexample: at the moment of re-targeting the resolved left
eye openness is 68 (five ticks of Neutral(100) toward Sleepy(35));
the claim predicts the first tick of the new transition toward
Happy(96) to produce `68 + (96 - 68) * 10 / 100 = 70`, but the code
blends from the Neutral *profile* and produces
`100 + (96 - 100) * 10 / 100 = 100`. -/
theorem retarget_uses_profile_counterexample :
    retargetProbe.ch.leftEyeOpenness = 68 ∧
    retargetProbe.currentEmotion = FaceEmotion.neutral ∧
    (animationTimerCb oZero 180 (faceSetEmotion 1 true retargetProbe)).ch.leftEyeOpenness
      = 100 ∧
    (68 : Int) + Int.tdiv ((96 - 68) * 10) 100 = 70 ∧
    (100 : Nat) ≠ 70 := by
  decide

/-- Claim C1 (amended): when `setEmotion(E, smooth=true)` re-targets
an initialized, non-blinking context, the source vector used for the
new interpolation is the emotion-table profile of the unchanged
`currentEmotion` — not the resolved channel vector at the moment of
re-targeting.  For every tick of the new transition each channel
equals `profileOf(currentEmotion) + (profileOf(E) -
profileOf(currentEmotion)) * progress / 100` (C truncating
arithmetic), and on the tenth tick the blender emits exactly
`profileOf(E)` and sets `currentEmotion := E`. -/
theorem retarget_blends_from_current_profile (e2 : FaceEmotion) (s : FaceState)
    (h1 : s.inited = true) (h2 : s.blink.isBlinking = false)
    (h3 : s.blink.lastBlinkTime = 0) (h4 : s.config.autoBlink = true)
    (h5 : s.config.blinkInterval = 3000) (hne : s.currentEmotion ≠ e2)
    (os : Nat → Oracle) (nows : Nat → Nat) (hn : ∀ k, k ≤ 9 → nows k ≤ 3000) :
    (∀ k, 1 ≤ k → k ≤ 9 →
      (tickOrbit os nows (faceSetEmotion (emotionCode e2) true s) k).currentEmotion
          = s.currentEmotion ∧
      (tickOrbit os nows (faceSetEmotion (emotionCode e2) true s) k).transitionProgress
          = 10 * k ∧
      (tickOrbit os nows (faceSetEmotion (emotionCode e2) true s) k).ch
          = blendChannels (emotionChannels s.currentEmotion) (emotionChannels e2)
              (10 * k)) ∧
    (corePhase (nows 9)
        (tickOrbit os nows (faceSetEmotion (emotionCode e2) true s) 9)).currentEmotion
      = e2 ∧
    (corePhase (nows 9)
        (tickOrbit os nows (faceSetEmotion (emotionCode e2) true s) 9)).ch
      = emotionChannels e2 := by
  have hready := (setEmotion_smooth_ready e2 s h1 h2 h3 h4 h5).1
  have horb := orbit_trans s.currentEmotion e2 hne os nows hn _ hready
  refine ⟨?_, ?_, ?_⟩
  · intro k hk1 hk9
    have hh := horb k hk9
    exact ⟨hh.1.2.2.2.2.2.1, hh.1.2.2.2.2.2.2.2, hh.2 hk1⟩
  · have h9 := (horb 9 (by norm_num)).1
    exact (corePhase_transFinal s.currentEmotion e2 hne (nows 9)
      (hn 9 (by norm_num)) _ h9).1.2.2.2.2.2.1
  · have h9 := (horb 9 (by norm_num)).1
    exact (corePhase_transFinal s.currentEmotion e2 hne (nows 9)
      (hn 9 (by norm_num)) _ h9).2

/-- Witness for the amended claim C1, at the concrete mid-flight
state of the counterexample scenario re-targeted to Happy. -/
theorem retarget_blends_from_current_profile_witness :
    (tickOrbit (fun _ => oZero) (fun _ => 100)
        (faceSetEmotion (emotionCode FaceEmotion.happy) true retargetProbe)
        1).transitionProgress = 10 ∧
    (tickOrbit (fun _ => oZero) (fun _ => 100)
        (faceSetEmotion (emotionCode FaceEmotion.happy) true retargetProbe) 1).ch
      = blendChannels (emotionChannels retargetProbe.currentEmotion)
          (emotionChannels FaceEmotion.happy) 10 ∧
    (corePhase 100
        (tickOrbit (fun _ => oZero) (fun _ => 100)
          (faceSetEmotion (emotionCode FaceEmotion.happy) true retargetProbe) 9)).ch
      = emotionChannels FaceEmotion.happy := by
  have hth := retarget_blends_from_current_profile FaceEmotion.happy retargetProbe
    (by decide) (by decide) (by decide) (by decide) (by decide) (by decide)
    (fun _ => oZero) (fun _ => 100) (fun k hk => by show (100 : Nat) ≤ 3000; omega)
  have h1 := hth.1 1 (by norm_num) (by norm_num)
  exact ⟨by rw [h1.2.1], h1.2.2, hth.2.2⟩

/-- Claim C2 counterexample: `setEyeOpenness(150, -10)` stores
`(100, 100)`, not the `(100, 0)` the claim states — the `-10` is
converted to the `uint8_t` parameter value 246 before the clamp. -/
theorem setEyeOpenness_negative_arg_counterexample :
    (faceSetEyeOpennessCall 150 (-10) (initState defaultConfig 0)).ch.leftEyeOpenness
      = 100 ∧
    (faceSetEyeOpennessCall 150 (-10) (initState defaultConfig 0)).ch.rightEyeOpenness
      = 100 ∧
    (100 : Nat) ≠ 0 := by
  decide

/-- Claim C2 (amended): the literal calls of the claim behave as the
C parameter types dictate: `setEyeOpenness(150, -10)` stores
`(100, 100)` (both `uint8_t` arguments land at or above the clamp),
`setMouthShape(200)` stores `-56` and `setMouthShape(-200)` stores
`56` (the `int8_t` parameter wraps, and the wrapped values are inside
`[-100, 100]`, so the clamp never fires).  Values representable in
the parameter types are genuinely clamped, never rejected: openness
stores `min(v, 100)` and the mouth stores the value clamped into
`[-100, 100]`. -/
theorem setter_clamping (s : FaceState) (hs : s.inited = true) :
    ((faceSetEyeOpennessCall 150 (-10) s).ch.leftEyeOpenness = 100 ∧
     (faceSetEyeOpennessCall 150 (-10) s).ch.rightEyeOpenness = 100) ∧
    ((faceSetMouthShapeCall 200 s).ch.mouthCurve = -56 ∧
     (faceSetMouthShapeCall (-200) s).ch.mouthCurve = 56) ∧
    (∀ l r : Nat, (faceSetEyeOpenness l r s).ch.leftEyeOpenness = min l 100 ∧
       (faceSetEyeOpenness l r s).ch.rightEyeOpenness = min r 100) ∧
    (∀ v : Int, (faceSetMouthShape v s).ch.mouthCurve = max (-100) (min 100 v)) := by
  have hg : ¬ (¬ s.inited = true) := by simp [hs]
  refine ⟨?_, ?_, ?_, ?_⟩
  · unfold faceSetEyeOpennessCall faceSetEyeOpenness
    rw [if_neg hg]
    constructor <;> norm_num [toUInt8]
  · unfold faceSetMouthShapeCall faceSetMouthShape
    constructor <;> (rw [if_neg hg]; norm_num [toInt8])
  · intro l r
    unfold faceSetEyeOpenness
    rw [if_neg hg]
    constructor <;> (dsimp only; split_ifs <;> omega)
  · intro v
    unfold faceSetMouthShape
    rw [if_neg hg]
    dsimp only
    split_ifs <;> omega

/-- Witness for the amended claim C2 at the freshly initialized
context. -/
theorem setter_clamping_witness :
    (faceSetEyeOpennessCall 150 (-10) (initState defaultConfig 0)).ch.rightEyeOpenness
        = 100 ∧
    (faceSetMouthShapeCall 200 (initState defaultConfig 0)).ch.mouthCurve = -56 ∧
    (faceSetEyeOpenness 130 7 (initState defaultConfig 0)).ch.leftEyeOpenness
        = min 130 100 ∧
    (faceSetMouthShape (-128) (initState defaultConfig 0)).ch.mouthCurve
        = max (-100) (min 100 (-128)) := by
  have hth := setter_clamping (initState defaultConfig 0) (by decide)
  exact ⟨hth.1.2, hth.2.1.1, (hth.2.2.1 130 7).1, hth.2.2.2 (-128)⟩

/-- Claim C3: `setEmotion(E1, false)` then `setEmotion(E2, true)`
from a fresh default context, for any two distinct selectable
emotions: the transition progress rises by exactly 10 on every
subsequent tick, after exactly ten ticks `currentEmotion = E2`, and
the blender output of the tenth tick is exactly `profileOf(E2)` (the
spec notes the resolved channels are "subject to subsequent
idle-motion overlay", which begins on that same tick, so profile
equality is stated of the blender stage `corePhase`). -/
theorem setEmotion_converges_in_ten_ticks (e1 e2 : FaceEmotion)
    (hsel1 : e1 ≠ FaceEmotion.blinkState) (hsel2 : e2 ≠ FaceEmotion.blinkState)
    (hne : e1 ≠ e2) (os : Nat → Oracle) :
    (∀ k, k < 10 → (c3Trace e1 e2 os (k + 1)).transitionProgress = 10 * (k + 1)) ∧
    (c3Trace e1 e2 os 10).currentEmotion = e2 ∧
    (c3Trace e1 e2 os 10).transitionProgress = 100 ∧
    (corePhase 300 (c3Trace e1 e2 os 9)).ch = emotionChannels e2 := by
  have hready := c3Trace_ready e1 e2
  have horb := orbit_trans e1 e2 hne os (fun k => 30 * (k + 1))
    (fun k hk => by show 30 * (k + 1) ≤ 3000; omega) _ hready
  have h9 := (horb 9 (by norm_num)).1
  have hfin := tick_transFinal e1 e2 hne (30 * (9 + 1)) (by norm_num) (os 9) _ h9
  refine ⟨?_, ?_, ?_, ?_⟩
  · intro k hk
    by_cases hk8 : k ≤ 8
    · exact (horb (k + 1) (by omega)).1.2.2.2.2.2.2.2
    · have hk9 : k = 9 := by omega
      rw [hk9]
      exact hfin.2.2.2.2.2.2.2
  · exact hfin.2.2.2.2.2.1
  · exact hfin.2.2.2.2.2.2.2
  · exact (corePhase_transFinal e1 e2 hne (30 * (9 + 1)) (by norm_num) _ h9).2

/-- Witness for claim C3 with `E1 = Happy`, `E2 = Sad` and the
all-zero oracle. -/
theorem setEmotion_converges_in_ten_ticks_witness :
    (c3Trace FaceEmotion.happy FaceEmotion.sad (fun _ => oZero) 3).transitionProgress
        = 30 ∧
    (c3Trace FaceEmotion.happy FaceEmotion.sad (fun _ => oZero) 10).currentEmotion
        = FaceEmotion.sad ∧
    (corePhase 300 (c3Trace FaceEmotion.happy FaceEmotion.sad (fun _ => oZero) 9)).ch
        = emotionChannels FaceEmotion.sad := by
  have hth := setEmotion_converges_in_ten_ticks FaceEmotion.happy FaceEmotion.sad
    (by decide) (by decide) (by decide) (fun _ => oZero)
  exact ⟨hth.1 2 (by norm_num), hth.2.1, hth.2.2.2⟩

/-- The blink-cycle scenario used as the concrete counterexample for
claim C4: custom openness 50, then a triggered blink and five ticks. -/
def blinkProbe : Nat → FaceState :=
  tickOrbit (fun _ => oZero) (fun k => 30 * (k + 1))
    (faceTriggerBlink (faceSetEyeOpenness 50 50 (initState defaultConfig 0)))

/-- Claim C4 counterexample: with pre-blink openness 50, after the
five blink ticks both eyes hold 100 — the blink does not restore the
pre-blink value. -/
theorem blink_overwrites_openness_counterexample :
    (faceSetEyeOpenness 50 50 (initState defaultConfig 0)).ch.leftEyeOpenness = 50 ∧
    (blinkProbe 0).blink.isBlinking = true ∧
    (blinkProbe 5).blink.isBlinking = false ∧
    (blinkProbe 5).ch.leftEyeOpenness = 100 ∧
    (blinkProbe 5).ch.rightEyeOpenness = 100 ∧
    (100 : Nat) ≠ 50 := by
  decide

/-- Claim C4 (amended): `triggerBlink()` from the non-blinking state
sets `isBlinking = true` with `blinkPhase = 0` and changes no
channel; a second `triggerBlink()` while blinking changes nothing at
all; and five ticks after a trigger (under the Neutral emotion, whose
idle overlay leaves eye openness alone) the blink is over with both
eyes set to openness 100 — fully open, not necessarily the pre-blink
value. -/
theorem triggerBlink_cycle (s : FaceState) :
    (s.inited = true → s.blink.isBlinking = false →
      (faceTriggerBlink s).blink.isBlinking = true ∧
      (faceTriggerBlink s).blink.blinkPhase = 0 ∧
      (faceTriggerBlink s).ch = s.ch) ∧
    (s.blink.isBlinking = true → faceTriggerBlink s = s) ∧
    (∀ (os : Nat → Oracle) (nows : Nat → Nat),
      s.inited = true → s.currentEmotion = FaceEmotion.neutral →
      s.blink.isBlinking = true → s.blink.blinkPhase = 0 →
      (tickOrbit os nows s 5).blink.isBlinking = false ∧
      (tickOrbit os nows s 5).blink.blinkPhase = 0 ∧
      (tickOrbit os nows s 5).ch.leftEyeOpenness = 100 ∧
      (tickOrbit os nows s 5).ch.rightEyeOpenness = 100) := by
  refine ⟨?_, ?_, ?_⟩
  · intro h1 h2
    unfold faceTriggerBlink
    rw [if_neg (by simp [h1, h2])]
    exact ⟨rfl, rfl, rfl⟩
  · intro hb
    unfold faceTriggerBlink
    rw [if_pos (Or.inr hb)]
  · intro os nows h1 hcur hb hp
    exact blink_cycle_five os nows s h1 hcur hb hp

/-- Witness for the amended claim C4 on the counterexample scenario
(trigger from fresh init, then the five-tick cycle). -/
theorem triggerBlink_cycle_witness :
    (faceTriggerBlink (initState defaultConfig 0)).blink.isBlinking = true ∧
    faceTriggerBlink (faceTriggerBlink (initState defaultConfig 0))
        = faceTriggerBlink (initState defaultConfig 0) ∧
    (tickOrbit (fun _ => oZero) (fun _ => 0)
        (faceTriggerBlink (initState defaultConfig 0)) 5).blink.isBlinking = false ∧
    (tickOrbit (fun _ => oZero) (fun _ => 0)
        (faceTriggerBlink (initState defaultConfig 0)) 5).ch.leftEyeOpenness = 100 := by
  have ha := (triggerBlink_cycle (initState defaultConfig 0)).1 (by decide) (by decide)
  have hb := (triggerBlink_cycle (faceTriggerBlink (initState defaultConfig 0))).2.1
    ha.1
  have hc := (triggerBlink_cycle (faceTriggerBlink (initState defaultConfig 0))).2.2
    (fun _ => oZero) (fun _ => 0) (by decide) (by decide) ha.1 ha.2.1
  exact ⟨ha.1, hb, hc.1, hc.2.2.1⟩

/-- Claim C5 counterexample: at `curve = 35` (included by the claim's
`35 ≤ curve`) the renderer draws the small smile/frown bar, not the
"O" mouth — the code's branch condition is strictly `curve > 35`.
At `curve = 36` the "O" mouth is drawn. -/
theorem mouth_at_35_draws_bar_counterexample :
    mouthShapeSelect FaceEmotion.neutral 35 50 = MouthShape.smileBar true ∧
    mouthShapeSelect FaceEmotion.neutral 36 50 = MouthShape.oMouth true ∧
    (∀ d : Bool, MouthShape.smileBar true ≠ MouthShape.oMouth d) := by
  decide

/-- Claim C5 (amended): for every mouth curve with `35 < curve < 65`
(strict on both ends) and current emotion other than Working-Hard,
the renderer draws the small round/diamond "O" mouth — the diamond
variant exactly when the pulsation phase is at least 30, the oval
otherwise — never the smile/frown bar. -/
theorem oMouth_selection (e : FaceEmotion) (curve : Int) (phase : Nat)
    (he : e ≠ FaceEmotion.workingHard) (h1 : 35 < curve) (h2 : curve < 65) :
    mouthShapeSelect e curve phase = MouthShape.oMouth (30 ≤ phase) := by
  unfold mouthShapeSelect
  rw [if_neg he, if_neg (by omega), if_pos ⟨h1, h2⟩]

/-- Witness for the amended claim C5 at `curve = 50`, phase 0 and
phase 60, under Neutral. -/
theorem oMouth_selection_witness :
    mouthShapeSelect FaceEmotion.neutral 50 0 = MouthShape.oMouth false ∧
    mouthShapeSelect FaceEmotion.neutral 50 60 = MouthShape.oMouth true := by
  have h0 := oMouth_selection FaceEmotion.neutral 50 0 (by decide)
    (by norm_num) (by norm_num)
  have h60 := oMouth_selection FaceEmotion.neutral 50 60 (by decide)
    (by norm_num) (by norm_num)
  exact ⟨by rw [h0]; decide, by rw [h60]; decide⟩

/-- Claim C6 counterexample: immediately after the public setter
`setEmotion(Playful, false)` the stored mouth curve is 110, outside
the claimed `[-100, 100]`. -/
theorem playful_mouth_exceeds_range_counterexample :
    (faceSetEmotion 9 false (initState defaultConfig 0)).ch.mouthCurve = 110 ∧
    ¬ ((faceSetEmotion 9 false (initState defaultConfig 0)).ch.mouthCurve ≤ 100) := by
  decide

/-- Claim C6 (amended): at every observation point — after
initialization, after any public setter, and after every tick —
`leftEyeOpenness` and `rightEyeOpenness` stay within `[0, 100]`, and
`mouthCurve` stays within `[-100, 115]` (not `[-100, 100]`: the
Playful profile stores 110 and its idle pulsation reaches up to
115). -/
theorem channels_in_range_at_observation_points (s : FaceState)
    (h : Reachable s) :
    s.ch.leftEyeOpenness ≤ 100 ∧ s.ch.rightEyeOpenness ≤ 100 ∧
    -100 ≤ s.ch.mouthCurve ∧ s.ch.mouthCurve ≤ 115 :=
  (reachable_invAux s h).1

/-- Witness for the amended claim C6 at a freshly initialized
context. -/
theorem channels_in_range_witness :
    (initState defaultConfig 0).ch.leftEyeOpenness ≤ 100 ∧
    (initState defaultConfig 0).ch.rightEyeOpenness ≤ 100 ∧
    -100 ≤ (initState defaultConfig 0).ch.mouthCurve ∧
    (initState defaultConfig 0).ch.mouthCurve ≤ 115 :=
  channels_in_range_at_observation_points (initState defaultConfig 0)
    (Reachable.init defaultConfig 0)

/-- Claim C7: the emotion-profile lookup is NOT side-effect-free;
`update_emotion_parameters(FACE_LOVE, ...)` writes the baseline
effect levels (blush 90, sparkle 100, heartbeat 100) into the shared
context state in addition to filling the caller-provided outputs.
The returned profile itself matches the spec's Love fixture. -/
theorem updateEmotionParameters_love_mutates_effects :
    (updateEmotionParameters FaceEmotion.love ⟨0, 0, 0⟩).2
        = ⟨90, 100, 100⟩ ∧
    ((updateEmotionParameters FaceEmotion.love ⟨0, 0, 0⟩).2 ≠ ⟨0, 0, 0⟩) ∧
    (updateEmotionParameters FaceEmotion.love ⟨0, 0, 0⟩).1
        = ⟨95, 95, 80, 3, 3, -3⟩ := by
  decide

/-- Probe states for claim C8: an initialized context sitting at
Happy.  In `heartbeatProbeA` the heartbeat phase is 3 with the
direction at its load-time value -1; in `heartbeatProbeB` it is 40
with direction +1 (the value the code installs after any full decay
to 0). -/
def heartbeatProbeA : FaceState :=
  { initState defaultConfig 0 with
      currentEmotion := FaceEmotion.happy, targetEmotion := FaceEmotion.happy,
      fx := ⟨0, 0, 3⟩ }

/-- Second probe state for claim C8 (see `heartbeatProbeA`). -/
def heartbeatProbeB : FaceState :=
  { initState defaultConfig 0 with
      currentEmotion := FaceEmotion.happy, targetEmotion := FaceEmotion.happy,
      fx := ⟨0, 0, 40⟩,
      motion := { (initState defaultConfig 0).motion with heartDirection := 1 } }

/-- Claim C8: the heartbeat "decay" is not monotone.  From phase 3
(emotion Happy, direction -1) a single tick computes `3 - 5` on the
`uint8_t` field, wraps to 254, and the `>= 100` clamp snaps it to 100
— a jump upward.  And once the direction static has flipped to +1
(which the code does whenever the phase reaches 0), a tick from phase
40 *increases* it to 45.  Shown both for the isolated heartbeat step
(C lines 1949-1966) and for the full timer tick. -/
theorem heartbeat_decay_jumps_upward :
    (heartbeatStep heartbeatProbeA).fx.heartBeatPhase = 100 ∧
    (animationTimerCb oZero 30 heartbeatProbeA).fx.heartBeatPhase = 100 ∧
    (heartbeatStep heartbeatProbeB).fx.heartBeatPhase = 45 ∧
    (animationTimerCb oZero 30 heartbeatProbeB).fx.heartBeatPhase = 45 ∧
    heartbeatProbeA.fx.heartBeatPhase = 3 ∧ heartbeatProbeB.fx.heartBeatPhase = 40 ∧
    heartbeatProbeA.currentEmotion ≠ FaceEmotion.love ∧
    heartbeatProbeB.currentEmotion ≠ FaceEmotion.love := by
  decide

/-- Claim C9 counterexample: `setAutoBlink(true)` on the
uninitialized zero context is not a no-op — the function has no
initialization guard and stores the flag. -/
theorem setAutoBlink_before_init_counterexample :
    zeroState.inited = false ∧
    faceSetAutoBlink true zeroState ≠ zeroState ∧
    (faceSetAutoBlink true zeroState).config.autoBlink = true ∧
    zeroState.config.autoBlink = false := by
  decide

/-- Claim C9 (amended): every public operation except `setAutoBlink`
silently no-ops on an uninitialized context — `setEmotion` (any
identifier), `setEyeOpenness`, `setMouthShape`, `triggerBlink`,
`setPosition`, and the timer callback all leave the state unchanged —
while `setAutoBlink` stores the flag into the context even before
initialization (the only observable change it makes). -/
theorem uninitialized_ops_noop (s : FaceState) (h : s.inited = false) :
    (∀ code smooth, faceSetEmotion code smooth s = s) ∧
    (∀ l r : Int, faceSetEyeOpennessCall l r s = s) ∧
    (∀ v : Int, faceSetMouthShapeCall v s = s) ∧
    faceTriggerBlink s = s ∧
    (∀ x y : Int, faceSetPosition x y s = s) ∧
    (∀ o now, animationTimerCb o now s = s) ∧
    (∀ b, faceSetAutoBlink b s
        = { s with config := { s.config with autoBlink := b } }) := by
  refine ⟨?_, ?_, ?_, ?_, ?_, ?_, ?_⟩
  · intro code smooth
    unfold faceSetEmotion
    rw [if_pos (Or.inl (by simp [h]))]
  · intro l r
    unfold faceSetEyeOpennessCall faceSetEyeOpenness
    rw [if_pos (by simp [h])]
  · intro v
    unfold faceSetMouthShapeCall faceSetMouthShape
    rw [if_pos (by simp [h])]
  · unfold faceTriggerBlink
    rw [if_pos (Or.inl (by simp [h]))]
  · intro x y
    unfold faceSetPosition
    rw [if_pos (by simp [h])]
  · intro o now
    unfold animationTimerCb
    rw [if_pos (by simp [h])]
  · intro b
    rfl

/-- Witness for the amended claim C9 at the zero-initialized static
context. -/
theorem uninitialized_ops_noop_witness :
    faceSetEmotion 1 false zeroState = zeroState ∧
    faceSetEyeOpennessCall 150 (-10) zeroState = zeroState ∧
    faceTriggerBlink zeroState = zeroState ∧
    (∀ o now, animationTimerCb o now zeroState = zeroState) := by
  have hth := uninitialized_ops_noop zeroState (by decide)
  exact ⟨hth.1 1 false, hth.2.1 150 (-10), hth.2.2.2.1, hth.2.2.2.2.2.1⟩

/-- Claim C10 counterexample: `FACE_BLINK` (enum value 17) passes the
`emotion >= FACE_EMOTION_COUNT` guard, so `setEmotion(FACE_BLINK,
false)` is *not* ignored: it changes `currentEmotion` to the blink
pseudo-state (resolving it through the `default` profile arm). -/
theorem setEmotion_blink_code_accepted_counterexample :
    (faceSetEmotion 17 false (initState defaultConfig 0)).currentEmotion
        = FaceEmotion.blinkState ∧
    (initState defaultConfig 0).currentEmotion = FaceEmotion.neutral ∧
    faceSetEmotion 17 false (initState defaultConfig 0) ≠ initState defaultConfig 0 := by
  decide

/-- Claim C10 (amended): `setEmotion` ignores exactly the identifiers
at or above `FACE_EMOTION_COUNT` (18), leaving all state unchanged
for them; every enumerator below 18 is accepted — including the
blinking pseudo-state `FACE_BLINK` (17), which is not one of the 17
user-selectable emotions but still passes the guard and resolves to
the default (neutral-like) profile with zeroed effect baselines. -/
theorem setEmotion_range_guard (code : Nat) (h : 18 ≤ code) (smooth : Bool)
    (s : FaceState) :
    faceSetEmotion code smooth s = s ∧
    (faceSetEmotion 17 false s).targetEmotion
        = (if s.inited = true then FaceEmotion.blinkState else s.targetEmotion) := by
  constructor
  · unfold faceSetEmotion
    rw [if_pos (Or.inr h)]
  · unfold faceSetEmotion
    by_cases hi : s.inited = true
    · rw [if_neg (by simp [hi]), if_pos hi]
      rfl
    · rw [if_pos (Or.inl (by simpa using hi)), if_neg hi]

/-- Witness for the amended claim C10 at identifier 18 (the first
rejected value) on a fresh context. -/
theorem setEmotion_range_guard_witness :
    faceSetEmotion 18 true (initState defaultConfig 0) = initState defaultConfig 0 ∧
    (faceSetEmotion 17 false (initState defaultConfig 0)).targetEmotion
        = (if (initState defaultConfig 0).inited = true then FaceEmotion.blinkState
           else (initState defaultConfig 0).targetEmotion) := by
  have hth := setEmotion_range_guard 18 (by norm_num) true (initState defaultConfig 0)
  exact ⟨hth.1, hth.2⟩

